import Mathlib

/-!
# Verification of the carmageddon-clone simulation core

Shallow embedding of the repository's collision/scoring pipeline
(`src/systems/CollisionManager.ts`), physics-world body registry
(`src/core/physics/PhysicsWorld.ts`), NPC population manager
(`NPCManager` in `src/systems`), pedestrian behavior (`Human`) and the
vehicle controller (`Vehicle.applyControls`).

Modelling conventions:
* JavaScript numbers are modelled as exact rationals `ℚ`; `Math.round`
  is `⌊q + 1/2⌋` (round half up), matching JS semantics on finite values.
* `Date.now()` timestamps are `ℕ` milliseconds, supplied by the caller.
* External math-library routines whose exact float value is irrelevant
  to the claims (`Math.sqrt`, `Math.sin`, `Math.atan2`, `Math.random`
  draws, `Math.PI`) are passed in as explicit parameters/oracles, so all
  definitions stay executable.
* A JS `Set` of ids is a duplicate-free insertion list, a `Map` keyed by
  body id is a function `ℕ → Option _`.
* `setTimeout` deletions are modelled as a pending-timer list
  `(fireTime, bodyId)`; timers due at or before the current time fire
  before each top-level event-loop task.
-/

namespace Carma

/-- JS `Math.round` on finite values: round half toward +∞, i.e.
`⌊q + 1/2⌋` (stated via the executable `Rat.floor`). -/
def jsRound (q : ℚ) : ℤ := Rat.floor (q + 1/2)

theorem jsRound_eq_floor (q : ℚ) : jsRound q = Int.floor (q + 1/2) := by
  rw [jsRound, Rat.floor_def', Rat.floor_def]

/-- 3-component vector over exact rationals (models `THREE.Vector3` /
`CANNON.Vec3`). -/
structure Vec3 where
  x : ℚ
  y : ℚ
  z : ℚ
deriving DecidableEq, Repr

namespace Vec3

def add (a b : Vec3) : Vec3 := ⟨a.x + b.x, a.y + b.y, a.z + b.z⟩

def sub (a b : Vec3) : Vec3 := ⟨a.x - b.x, a.y - b.y, a.z - b.z⟩

def scale (k : ℚ) (a : Vec3) : Vec3 := ⟨k * a.x, k * a.y, k * a.z⟩

/-- Squared Euclidean norm.  The source compares `v.length()` (and
`a.distanceTo(b)`) against non-negative thresholds; over exact rationals
`‖v‖ > c ↔ ‖v‖² > c²` for `c ≥ 0`, so all such tests are embedded via
squared norms to stay in `ℚ`. -/
def normSq (v : Vec3) : ℚ := v.x * v.x + v.y * v.y + v.z * v.z

/-- Squared distance between two points. -/
def distSq (a b : Vec3) : ℚ := normSq (sub a b)

end Vec3

/-- Models `CollisionObjectType` enum from `CollisionManager.ts`. -/
inductive ObjType where
  | vehicle
  | building
  | humanNpc
  | animalNpc
  | prop
  | ground
  | misc
deriving DecidableEq, Repr

/-- A `CANNON.Body` as seen by the collision pipeline: numeric id,
position and linear velocity. -/
structure Body where
  id : ℕ
  position : Vec3
  velocity : Vec3
deriving DecidableEq, Repr

/-- Contact manifold data used by `handleCollision` when
`event.contact` is present: the impact velocity along the normal, the
position of body `bi` and the relative contact offset `ri`. -/
structure ContactData where
  impactVelocityAlongNormal : ℚ
  biPosition : Vec3
  ri : Vec3
deriving DecidableEq, Repr

/-- The raw event a `PhysicsWorld` collision callback receives
(`{bodyA, bodyB, contact, ...}`); `contact` may be absent. -/
structure RawEvent where
  bodyA : Body
  bodyB : Body
  contact : Option ContactData
deriving DecidableEq, Repr

/-- The classified `CollisionEvent` built by
`CollisionManager.handleCollision` and handed to `processCollision` and
the registered callbacks. -/
structure CollisionEvent where
  bodyAId : ℕ
  bodyBId : ℕ
  targetId : ℕ
  targetType : ObjType
  impactVelocity : ℚ
  collisionPoint : Vec3
deriving DecidableEq, Repr

/-- JS `Set.add`: append if not already present. -/
def setAdd (l : List ℕ) (i : ℕ) : List ℕ := if i ∈ l then l else l ++ [i]

/-- Mutable state of `CollisionManager`: combo counter, last-hit
timestamp, score, the body-id → type map, the hit-deduplication set and
the pending `setTimeout` deletions scheduled against it.
`vehicleSet` records whether `setVehicle` has run. -/
structure CMState where
  vehicleSet : Bool
  consecutiveHumanHits : ℕ
  lastHitTime : ℕ
  score : ℤ
  objectTypes : ℕ → Option ObjType
  hitObjects : List ℕ
  timers : List (ℕ × ℕ)

/-- State of a `CollisionManager` freshly constructed (before
`setVehicle` and any registration). -/
def CMState.init : CMState :=
  { vehicleSet := false
    consecutiveHumanHits := 0
    lastHitTime := 0
    score := 0
    objectTypes := fun _ => none
    hitObjects := []
    timers := [] }

/-- Models `CollisionManager.registerObject`: `objectTypes.set(body.id, type)`
(re-registration overwrites). -/
def registerObject (s : CMState) (bodyId : ℕ) (t : ObjType) : CMState :=
  { s with objectTypes := fun k => if k = bodyId then some t else s.objectTypes k }

/-- Models `CollisionManager.setVehicle`: remembers the vehicle and registers
its body as `VEHICLE`. -/
def setVehicle (s : CMState) (bodyId : ℕ) : CMState :=
  { registerObject s bodyId ObjType.vehicle with vehicleSet := true }

/-- Models `CollisionManager.processHumanCollision`.  Note the source
double-checks the hit set against `event.bodyB.id` (the raw second body,
not the classified target) and also inserts `event.bodyB.id`. -/
def processHumanCollision (s : CMState) (now : ℕ) (e : CollisionEvent) : CMState :=
  if e.bodyBId ∈ s.hitObjects then s
  else
    let s1 := { s with hitObjects := setAdd s.hitObjects e.bodyBId }
    let speedMultiplier : ℚ := min 3 (e.impactVelocity / 5)
    let scoreGain : ℤ := jsRound (100 * speedMultiplier)
    let hits : ℕ := s1.consecutiveHumanHits + 1
    let s2 := { s1 with consecutiveHumanHits := hits, lastHitTime := now }
    let scoreGain : ℤ :=
      if 3 ≤ hits then
        jsRound ((scoreGain : ℚ) * min 3 (1 + ((hits : ℚ) - 2) * (1/2)))
      else scoreGain
    { s2 with score := s2.score + scoreGain }

/-- Models `CollisionManager.processAnimalCollision`: fixed −200 penalty and
combo reset (same `bodyB`-keyed dedup double-check as the human path). -/
def processAnimalCollision (s : CMState) (e : CollisionEvent) : CMState :=
  if e.bodyBId ∈ s.hitObjects then s
  else
    { s with hitObjects := setAdd s.hitObjects e.bodyBId
             score := s.score - 200
             consecutiveHumanHits := 0 }

/-- Models `CollisionManager.processCollision`: dispatch on the target type.
Building/prop/default branches only spawn visual effects and leave the
scoring state unchanged. -/
def processCollision (s : CMState) (now : ℕ) (e : CollisionEvent) : CMState :=
  match e.targetType with
  | ObjType.humanNpc => processHumanCollision s now e
  | ObjType.animalNpc => processAnimalCollision s e
  | _ => s

/-- The vehicle/target resolution of `handleCollision`: `bodyA` is
checked against `VEHICLE` first, then `bodyB`; the other body is the
target.  Returns `(vehicleId, targetId)`, or `none` when neither body is
the registered vehicle. -/
def resolveTarget (types : ℕ → Option ObjType) (e : RawEvent) : Option (ℕ × ℕ) :=
  if types e.bodyA.id = some ObjType.vehicle then some (e.bodyA.id, e.bodyB.id)
  else if types e.bodyB.id = some ObjType.vehicle then some (e.bodyB.id, e.bodyA.id)
  else none

/-- Models `CollisionManager.handleCollision`.  `sq` models `Math.sqrt`, used
only for the no-manifold fallback `relativeVelocity.length()`.  Returns
the updated state together with the `CollisionEvent` dispatched to the
registered callbacks, or `none` when the contact is filtered out. -/
def handleCollision (sq : ℚ → ℚ) (now : ℕ) (s : CMState) (e : RawEvent) :
    CMState × Option CollisionEvent :=
  if ¬ s.vehicleSet then (s, none)
  else
    let impactVelocity : ℚ :=
      match e.contact with
      | some c => c.impactVelocityAlongNormal
      | none => sq (Vec3.normSq (Vec3.sub e.bodyA.velocity e.bodyB.velocity))
    if |impactVelocity| < 1 then (s, none)
    else
      match resolveTarget s.objectTypes e with
      | none => (s, none)
      | some (_, targetId) =>
        let targetType := (s.objectTypes targetId).getD ObjType.misc
        if targetId ∈ s.hitObjects then (s, none)
        else
          let s1 := { s with hitObjects := setAdd s.hitObjects targetId
                             timers := s.timers ++ [(now + 1000, targetId)] }
          let collisionPoint : Vec3 :=
            match e.contact with
            | some c => Vec3.add c.biPosition c.ri
            | none => Vec3.scale (1/2) (Vec3.add e.bodyA.position e.bodyB.position)
          let ev : CollisionEvent :=
            { bodyAId := e.bodyA.id
              bodyBId := e.bodyB.id
              targetId := targetId
              targetType := targetType
              impactVelocity := |impactVelocity|
              collisionPoint := collisionPoint }
          (processCollision s1 now ev, some ev)

/-- Models `CollisionManager.update`: combo-window expiry check, then the
periodic full clear of the hit set (`now % 1000 < 20`). -/
def cmUpdate (s : CMState) (now : ℕ) : CMState :=
  let s1 :=
    if 0 < s.lastHitTime ∧ 5000 < now - s.lastHitTime then
      { s with consecutiveHumanHits := 0 }
    else s
  if now % 1000 < 20 then { s1 with hitObjects := [] } else s1

/-- Fire every pending `setTimeout` deletion due at or before `now`:
each due timer removes its body id from the hit set (idempotently). -/
def fireTimers (now : ℕ) (s : CMState) : CMState :=
  let due := s.timers.filter (fun p => p.1 ≤ now)
  { s with timers := s.timers.filter (fun p => ¬ p.1 ≤ now)
           hitObjects := s.hitObjects.filter (fun i => ¬ due.any (fun p => p.2 = i)) }

/-- A top-level event-loop task hitting the collision manager: either a
physics contact callback or a `CollisionManager.update` tick, each
stamped with its `Date.now()`. -/
inductive GameOp where
  | contact (now : ℕ) (e : RawEvent)
  | tick (now : ℕ)
deriving Repr

def GameOp.time : GameOp → ℕ
  | .contact now _ => now
  | .tick now => now

/-- Execute one task: due timers fire first, then the task body runs.
Returns the new state and the dispatched outcome, if any, as
`(time, targetId)`. -/
def applyOp (sq : ℚ → ℚ) (s : CMState) : GameOp → CMState × Option (ℕ × ℕ)
  | .contact now e =>
    let r := handleCollision sq now (fireTimers now s) e
    (r.1, r.2.map (fun ev => (now, ev.targetId)))
  | .tick now => (cmUpdate (fireTimers now s) now, none)

/-- Run a time-ordered list of tasks, collecting every dispatched
collision outcome as `(time, targetId)`. -/
def runOps (sq : ℚ → ℚ) (s : CMState) : List GameOp → CMState × List (ℕ × ℕ)
  | [] => (s, [])
  | op :: rest =>
    let r := applyOp sq s op
    let rr := runOps sq r.1 rest
    (rr.1, r.2.toList ++ rr.2)

/-- The callback dispatch loop at the end of `handleCollision`:
`this.collisionCallbacks.forEach(callback => callback(collisionEvent))`.
A callback is modelled by whether it throws on the event (`true` =
throws).  There is no try/catch in the source loop, so the first throw
propagates and aborts the iteration.  Returns how many callbacks were
invoked and whether an exception escaped. -/
def runCallbacks (cbs : List (CollisionEvent → Bool)) (e : CollisionEvent) : ℕ × Bool :=
  match cbs with
  | [] => (0, false)
  | c :: rest =>
    if c e then (1, true)
    else
      let r := runCallbacks rest e
      (r.1 + 1, r.2)

/-! ## PhysicsWorld (`src/core/physics/PhysicsWorld.ts`) -/

/-- The registries `PhysicsWorld` owns: the Cannon world's body list and
the `physicsBodies` / `meshBodyMap` / `bodyMeshMap` mappings.  Bodies
are identified by id; `meshLinks` pairs a body id with its mesh handle
(an opaque `ℕ`), standing for both directions of the mesh maps. -/
structure PWState where
  worldBodies : List ℕ
  physicsBodies : List ℕ
  meshLinks : List (ℕ × ℕ)
deriving DecidableEq, Repr

/-- Models `PhysicsWorld.removeBody` on a `CANNON.Body` argument: remove from
the world and the `physicsBodies` map, and drop the mesh association if
one exists.  It touches nothing outside `PhysicsWorld`. -/
def pwRemoveBody (w : PWState) (bodyId : ℕ) : PWState :=
  { worldBodies := w.worldBodies.filter (fun i => i ≠ bodyId)
    physicsBodies := w.physicsBodies.filter (fun i => i ≠ bodyId)
    meshLinks := w.meshLinks.filter (fun p => p.1 ≠ bodyId) }

/-- Combined game state for the body-removal claim: the physics world
and the collision manager are separate objects, and
`PhysicsWorld.removeBody` holds no reference to the collision manager,
so removal leaves the `CMState` untouched. -/
def gameRemoveBody (w : PWState) (cm : CMState) (bodyId : ℕ) : PWState × CMState :=
  (pwRemoveBody w bodyId, cm)

/-- A JS number delta-time: either NaN or a finite rational. -/
inductive JSNum where
  | nan
  | num (q : ℚ)
deriving DecidableEq, Repr

/-- The JS comparison `deltaTime > 0`: false for NaN. -/
def jsGtZero : JSNum → Bool
  | .nan => false
  | .num q => decide (0 < q)

/-- Models `PhysicsWorld.update(deltaTime)`: the whole body — `world.step`,
mesh sync, debug-mesh update — is guarded by `if (deltaTime > 0)`.
`stepSync` abstracts that guarded block (the Cannon step followed by the
mesh synchronisation), acting on the observable world `w`. -/
def pwUpdate (stepSync : ℚ → PWState → PWState) (w : PWState) (dt : JSNum) : PWState :=
  if jsGtZero dt then
    match dt with
    | .num q => stepSync q w
    | .nan => w
  else w

/-! ## NPCManager (population update loop) -/

section Pool

variable {A : Type}

/-- One survivor's post-cull panic check: if a player vehicle is set and
the agent is strictly within the 15-unit panic radius of it, call the
agent's panic/flee routine. -/
def panicCheck (pos : A → Vec3) (pan : Vec3 → A → A) (veh : Option Vec3) (a : A) : A :=
  match veh with
  | some vp => if Vec3.distSq (pos a) vp < 225 then pan vp a else a
  | none => a

/-- The per-tick agent loop of `NPCManager.update` for one pool (it is
identical for humans and animals): each agent is updated, then removed
(disposed) when `position.length() > 150`, i.e. when its squared
distance FROM THE WORLD ORIGIN exceeds `150² = 22500`; survivors panic
when within the panic radius of the vehicle.  The source iterates from
the back with `splice`; since each decision depends only on the agent
itself, this equals the forward recursion below, preserving order. -/
def updatePool (upd : A → A) (pos : A → Vec3) (pan : Vec3 → A → A)
    (veh : Option Vec3) : List A → List A
  | [] => []
  | a :: rest =>
    let a1 := upd a
    if 22500 < Vec3.normSq (pos a1) then updatePool upd pos pan veh rest
    else panicCheck pos pan veh a1 :: updatePool upd pos pan veh rest

end Pool

/-! ## Human pedestrian (`Human.ts`) -/

/-- Oracle for the float math-library routines `Human` calls
(`Math.sin`, `Math.cos`, `Math.atan2`, `Math.PI`, and normalisation of
a vector, which needs a square root).  The claims proved about `Human`
hold for every oracle. -/
structure MathOracle where
  sinQ : ℚ → ℚ
  cosQ : ℚ → ℚ
  atan2Q : ℚ → ℚ → ℚ
  piQ : ℚ
  /-- models `v.normalize()`: the unit vector `THREE` computes. -/
  normalizeQ : Vec3 → Vec3

/-- Mutable state of a `Human` NPC (mesh-child animation fields such as
arm swing are cosmetic render state and carry no behavior). -/
structure HumanState where
  walkSpeed : ℚ
  direction : ℚ
  isWalking : Bool
  panicMode : Bool
  targetPosition : Option Vec3
  nextDirectionChange : ℕ
  directionChangeInterval : ℕ
  meshPos : Vec3
  bodyPos : Vec3
deriving Repr

/-- A `Human` right after construction at `position`: `walkSpeed = 1.5`,
not panicking, and `startWalking` has chosen a first direction (folded
into the initial fields via the first `chooseNewDirection`). -/
def HumanState.initial (position : Vec3) : HumanState :=
  { walkSpeed := 3/2
    direction := 0
    isWalking := true
    panicMode := false
    targetPosition := none
    nextDirectionChange := 0
    directionChangeInterval := 3000
    meshPos := position
    bodyPos := ⟨position.x, position.y + 9/10, position.z⟩ }

/-- Models `Human.chooseNewDirection` with the two `Math.random()` draws
`r1, r2 ∈ [0,1)` passed in. -/
def chooseNewDirection (o : MathOracle) (r1 r2 : ℚ) (now : ℕ) (h : HumanState) :
    HumanState :=
  let dir := r1 * o.piQ * 2
  let dist := 5 + r2 * 10
  let target : Vec3 :=
    ⟨h.meshPos.x + o.sinQ dir * dist, 0, h.meshPos.z + o.cosQ dir * dist⟩
  { h with direction := dir
           targetPosition := some target
           nextDirectionChange := now + h.directionChangeInterval }

/-- Models `Human.panic(threatPosition)`: guarded by `if (this.panicMode)
return`, otherwise sets panic mode, fixes the run speed at 5, heads
directly away from the threat and quiets direction changes for 5 s. -/
def humanPanic (o : MathOracle) (now : ℕ) (threat : Vec3) (h : HumanState) : HumanState :=
  if h.panicMode then h
  else
    let away := o.normalizeQ (Vec3.sub h.meshPos threat)
    let dir := o.atan2Q away.x away.z
    let target : Vec3 :=
      ⟨h.meshPos.x + away.x * 20, 0, h.meshPos.z + away.z * 20⟩
    { h with panicMode := true
             walkSpeed := 5
             direction := dir
             targetPosition := some target
             directionChangeInterval := 5000
             nextDirectionChange := now + 5000 }

/-- Models `Human.update(deltaTime)`.  `r1 r2` (and `r3 r4`) are the random
draws consumed if the timed (resp. target-reached) `chooseNewDirection`
fires.  The walk-bob `sin(Date.now() * 0.01) * 0.05` is `o.sinQ` of the
scaled clock. -/
def humanUpdate (o : MathOracle) (now : ℕ) (dt : ℚ) (r1 r2 r3 r4 : ℚ)
    (h : HumanState) : HumanState :=
  if ¬ h.isWalking then h
  else
    let h1 := if h.nextDirectionChange < now then chooseNewDirection o r1 r2 now h else h
    let dist := h1.walkSpeed * dt
    let mv : Vec3 := ⟨o.sinQ h1.direction * dist, 0, o.cosQ h1.direction * dist⟩
    let h2 := { h1 with meshPos := Vec3.add h1.meshPos mv }
    let h3 := { h2 with bodyPos := ⟨h2.meshPos.x, h2.bodyPos.y, h2.meshPos.z⟩ }
    let h4 :=
      match h3.targetPosition with
      | some tp => if Vec3.distSq h3.meshPos tp < 1 then chooseNewDirection o r3 r4 now h3 else h3
      | none => h3
    let walkCycle := o.sinQ ((now : ℚ) * (1/100)) * (1/20)
    let h5 := { h4 with meshPos := ⟨h4.meshPos.x, walkCycle, h4.meshPos.z⟩ }
    { h5 with bodyPos := ⟨h5.meshPos.x, 9/10 + walkCycle, h5.meshPos.z⟩ }

/-- Any later life of a `Human`: each tick the manager may call
`update` and, when the vehicle is close, `panic`. -/
inductive HumanOp where
  | upd (now : ℕ) (dt r1 r2 r3 r4 : ℚ)
  | pan (now : ℕ) (threat : Vec3)

/-- Run a sequence of operations on a human. -/
def runHuman (o : MathOracle) (h : HumanState) : List HumanOp → HumanState
  | [] => h
  | HumanOp.upd now dt r1 r2 r3 r4 :: rest =>
    runHuman o (humanUpdate o now dt r1 r2 r3 r4 h) rest
  | HumanOp.pan now threat :: rest =>
    runHuman o (humanPanic o now threat h) rest

/-! ## Vehicle controller (`Vehicle.applyControls`) -/

/-- The control-state snapshot. -/
structure ControlState where
  forward : Bool
  backward : Bool
  left : Bool
  right : Bool
  brake : Bool
  handbrake : Bool
deriving DecidableEq, Repr

/-- Vehicle constants from the source: `maxSpeed = 55`,
`acceleration = 10`, `turnSpeed = 0.03`, `brakeForce = 15`; the hard
coded per-call delta is `0.016`. -/
def vehMaxSpeed : ℚ := 55
def vehAcceleration : ℚ := 10
def vehTurnSpeed : ℚ := 3/100
def vehBrakeForce : ℚ := 15

/-- Models `if (controlState.forward) velocity += acceleration * 0.016`. -/
def accelStep (cs : ControlState) (v : ℚ) : ℚ :=
  if cs.forward then v + vehAcceleration * (16/1000) else v

/-- Models `if (controlState.backward)`: brake when moving forward, otherwise
accelerate in reverse. -/
def reverseStep (cs : ControlState) (v : ℚ) : ℚ :=
  if cs.backward then
    (if 0 < v then v - vehBrakeForce * (16/1000) else v - vehAcceleration * (16/1000))
  else v

/-- Left/right heading adjustment by the fixed turn increment. -/
def turnStep (cs : ControlState) (d : ℚ) : ℚ :=
  let d1 := if cs.left then d + vehTurnSpeed else d
  if cs.right then d1 - vehTurnSpeed else d1

/-- Models `if (controlState.handbrake) velocity *= 0.9`. -/
def handbrakeStep (cs : ControlState) (v : ℚ) : ℚ :=
  if cs.handbrake then v * (9/10) else v

/-- Models `if (controlState.brake)`: decelerate toward zero from either sign. -/
def brakeStep (cs : ControlState) (v : ℚ) : ℚ :=
  if cs.brake then
    (if 0 < v then v - vehBrakeForce * (16/1000)
     else if v < 0 then v + vehBrakeForce * (16/1000) else v)
  else v

/-- Models `velocity = Math.max(Math.min(velocity, maxSpeed), -maxSpeed / 2)`. -/
def clampStep (v : ℚ) : ℚ := max (min v vehMaxSpeed) (-vehMaxSpeed / 2)

/-- Idle decay when neither throttle nor reverse is held: snap to 0
below magnitude 0.1, otherwise multiply by 0.98. -/
def idleDecayStep (cs : ControlState) (v : ℚ) : ℚ :=
  if ¬ cs.forward ∧ ¬ cs.backward then
    (if |v| < 1/10 then 0 else v * (98/100))
  else v

/-- Models `Vehicle.applyControls`, acting on the scalar `(velocity,
direction)` pair, composing the source's statements in order: throttle,
reverse/brake, turn, handbrake, brake, clamp to
`[-maxSpeed/2, maxSpeed]`, then idle decay. -/
def applyControls (cs : ControlState) (velocity direction : ℚ) : ℚ × ℚ :=
  (idleDecayStep cs (clampStep (brakeStep cs (handbrakeStep cs
      (reverseStep cs (accelStep cs velocity))))),
   turnStep cs direction)

/-! ## Theorems -/

section ScoreLemmas

variable (s : CMState) (now : ℕ) (e : CollisionEvent)

theorem processHuman_counter (hnew : e.bodyBId ∉ s.hitObjects) :
    (processHumanCollision s now e).consecutiveHumanHits
      = s.consecutiveHumanHits + 1 := by
  simp [processHumanCollision, hnew]

theorem processHuman_hitObjects (hnew : e.bodyBId ∉ s.hitObjects) :
    (processHumanCollision s now e).hitObjects = setAdd s.hitObjects e.bodyBId := by
  simp [processHumanCollision, hnew]

theorem processHuman_score_nocombo (hnew : e.bodyBId ∉ s.hitObjects)
    (hc : s.consecutiveHumanHits + 1 < 3) :
    (processHumanCollision s now e).score
      = s.score + jsRound (100 * min 3 (e.impactVelocity / 5)) := by
  simp [processHumanCollision, hnew,
    show ¬ 3 ≤ s.consecutiveHumanHits + 1 from by omega]

theorem processHuman_score_combo (hnew : e.bodyBId ∉ s.hitObjects)
    (hc : 3 ≤ s.consecutiveHumanHits + 1) :
    (processHumanCollision s now e).score
      = s.score + jsRound ((jsRound (100 * min 3 (e.impactVelocity / 5)) : ℚ)
          * min 3 (1 + (((s.consecutiveHumanHits + 1 : ℕ) : ℚ) - 2) * (1/2))) := by
  simp [processHumanCollision, hnew, hc]

theorem processAnimal_fields (hnew : e.bodyBId ∉ s.hitObjects) :
    (processAnimalCollision s e).score = s.score - 200
    ∧ (processAnimalCollision s e).consecutiveHumanHits = 0
    ∧ (processAnimalCollision s e).hitObjects = setAdd s.hitObjects e.bodyBId := by
  refine ⟨?_, ?_, ?_⟩ <;> simp [processAnimalCollision, hnew]

end ScoreLemmas

theorem jsRound_gain_five : jsRound (100 * min 3 ((5 : ℚ) / 5)) = 100 := by
  rw [jsRound_eq_floor]; norm_num [min_def]

theorem jsRound_gain_ten : jsRound (100 * min 3 ((10 : ℚ) / 5)) = 200 := by
  rw [jsRound_eq_floor]; norm_num [min_def]

theorem jsRound_combo_three :
    jsRound ((100 : ℚ) * min 3 (1 + (((3 : ℕ) : ℚ) - 2) * (1/2))) = 150 := by
  rw [jsRound_eq_floor]; norm_num [min_def]

/-- C2: processing a HumanAgent collision outcome on a fresh score
state (consecutive-human-hit counter 0, body not already in the hit
set) adds exactly `round(100 * min(3, impactSpeed / 5))` to the score;
the counter becomes 1, so no combo multiplier is applied, and at impact
speed 10 the delta is exactly 200. -/
theorem human_score_fresh (s : CMState) (now : ℕ) (e : CollisionEvent)
    (hcnt : s.consecutiveHumanHits = 0) (hnew : e.bodyBId ∉ s.hitObjects) :
    (processHumanCollision s now e).score
        = s.score + jsRound (100 * min 3 (e.impactVelocity / 5))
    ∧ (processHumanCollision s now e).consecutiveHumanHits = 1
    ∧ (e.impactVelocity = 10 →
        (processHumanCollision s now e).score = s.score + 200) := by
  have hlt : s.consecutiveHumanHits + 1 < 3 := by omega
  refine ⟨processHuman_score_nocombo s now e hnew hlt, ?_, fun hv => ?_⟩
  · rw [processHuman_counter s now e hnew, hcnt]
  · rw [processHuman_score_nocombo s now e hnew hlt, hv, jsRound_gain_ten]

/-- C2 witness: a concrete fresh state and impact speed 10. -/
def evHuman (i : ℕ) (v : ℚ) : CollisionEvent :=
  { bodyAId := 1, bodyBId := i, targetId := i, targetType := ObjType.humanNpc
    impactVelocity := v, collisionPoint := ⟨0, 0, 0⟩ }

theorem human_score_fresh_witness :
    CMState.init.consecutiveHumanHits = 0
    ∧ (evHuman 11 10).bodyBId ∉ CMState.init.hitObjects
    ∧ ((processHumanCollision CMState.init 0 (evHuman 11 10)).score
          = CMState.init.score + jsRound (100 * min 3 ((evHuman 11 10).impactVelocity / 5))
        ∧ (processHumanCollision CMState.init 0 (evHuman 11 10)).consecutiveHumanHits = 1
        ∧ ((evHuman 11 10).impactVelocity = 10 →
            (processHumanCollision CMState.init 0 (evHuman 11 10)).score
              = CMState.init.score + 200)) :=
  ⟨rfl, by decide, human_score_fresh CMState.init 0 (evHuman 11 10) rfl (by decide)⟩

/-- C3: three consecutive HumanAgent hits at impact speed exactly 5,
each passing the dedup double-check, starting from counter 0: the
deltas are 100, 100, and 150 (the combo multiplier 1.5 activates on the
third hit, when the counter reaches 3). -/
theorem combo_threshold (s : CMState) (n1 n2 n3 : ℕ) (e1 e2 e3 : CollisionEvent)
    (hcnt : s.consecutiveHumanHits = 0)
    (hv1 : e1.impactVelocity = 5) (hv2 : e2.impactVelocity = 5)
    (hv3 : e3.impactVelocity = 5)
    (h1 : e1.bodyBId ∉ s.hitObjects)
    (h2 : e2.bodyBId ∉ (processHumanCollision s n1 e1).hitObjects)
    (h3 : e3.bodyBId ∉
        (processHumanCollision (processHumanCollision s n1 e1) n2 e2).hitObjects) :
    (processHumanCollision s n1 e1).score - s.score = 100
    ∧ (processHumanCollision (processHumanCollision s n1 e1) n2 e2).score
        - (processHumanCollision s n1 e1).score = 100
    ∧ (processHumanCollision
          (processHumanCollision (processHumanCollision s n1 e1) n2 e2) n3 e3).score
        - (processHumanCollision (processHumanCollision s n1 e1) n2 e2).score = 150 := by
  have c1 : (processHumanCollision s n1 e1).consecutiveHumanHits = 1 := by
    rw [processHuman_counter s n1 e1 h1, hcnt]
  have c2 :
      (processHumanCollision (processHumanCollision s n1 e1) n2
        e2).consecutiveHumanHits = 2 := by
    rw [processHuman_counter _ n2 e2 h2, c1]
  refine ⟨?_, ?_, ?_⟩
  · rw [processHuman_score_nocombo s n1 e1 h1 (by omega), hv1, jsRound_gain_five]
    ring
  · rw [processHuman_score_nocombo _ n2 e2 h2 (by omega), hv2, jsRound_gain_five]
    ring
  · rw [processHuman_score_combo _ n3 e3 h3 (by omega), hv3, c2, jsRound_gain_five]
    have : jsRound ((((100 : ℤ) : ℚ))
        * min 3 (1 + (((2 + 1 : ℕ) : ℚ) - 2) * (1/2))) = 150 := by
      rw [jsRound_eq_floor]; norm_num [min_def]
    rw [this]
    ring

theorem combo_threshold_witness :
    CMState.init.consecutiveHumanHits = 0
    ∧ (evHuman 11 5).impactVelocity = 5
    ∧ (evHuman 11 5).bodyBId ∉ CMState.init.hitObjects
    ∧ (evHuman 12 5).bodyBId ∉
        (processHumanCollision CMState.init 0 (evHuman 11 5)).hitObjects
    ∧ (evHuman 13 5).bodyBId ∉
        (processHumanCollision (processHumanCollision CMState.init 0 (evHuman 11 5)) 1
          (evHuman 12 5)).hitObjects
    ∧ ((processHumanCollision CMState.init 0 (evHuman 11 5)).score - CMState.init.score = 100
       ∧ (processHumanCollision (processHumanCollision CMState.init 0 (evHuman 11 5)) 1
            (evHuman 12 5)).score
          - (processHumanCollision CMState.init 0 (evHuman 11 5)).score = 100
       ∧ (processHumanCollision
            (processHumanCollision (processHumanCollision CMState.init 0 (evHuman 11 5)) 1
              (evHuman 12 5)) 2 (evHuman 13 5)).score
          - (processHumanCollision (processHumanCollision CMState.init 0 (evHuman 11 5)) 1
              (evHuman 12 5)).score = 150) :=
  ⟨rfl, rfl, by decide, by decide, by decide,
    combo_threshold CMState.init 0 1 2 (evHuman 11 5) (evHuman 12 5) (evHuman 13 5)
      rfl rfl rfl rfl (by decide) (by decide) (by decide)⟩

/-- C4: processing an AnimalAgent collision outcome subtracts exactly
200 (independently of impact speed, which the animal branch never
reads) and resets the consecutive-human-hit counter to 0; a subsequent
HumanAgent hit then lands with counter 1 and an un-multiplied gain. -/
theorem animal_penalty_resets_combo (s : CMState) (n2 : ℕ) (e1 e2 : CollisionEvent)
    (h1 : e1.bodyBId ∉ s.hitObjects)
    (h2 : e2.bodyBId ∉ (processAnimalCollision s e1).hitObjects) :
    (processAnimalCollision s e1).score = s.score - 200
    ∧ (processAnimalCollision s e1).consecutiveHumanHits = 0
    ∧ (processHumanCollision (processAnimalCollision s e1) n2 e2).consecutiveHumanHits = 1
    ∧ (processHumanCollision (processAnimalCollision s e1) n2 e2).score
        = (processAnimalCollision s e1).score
          + jsRound (100 * min 3 (e2.impactVelocity / 5)) := by
  obtain ⟨hsc, hz, _⟩ := processAnimal_fields s e1 h1
  refine ⟨hsc, hz, ?_, ?_⟩
  · rw [processHuman_counter _ n2 e2 h2, hz]
  · exact processHuman_score_nocombo _ n2 e2 h2 (by omega)

/-- C4 witness: counter built up to 4, an animal hit at speed 17, then
a human hit at speed 10. -/
def evAnimal : CollisionEvent :=
  { bodyAId := 1, bodyBId := 21, targetId := 21, targetType := ObjType.animalNpc
    impactVelocity := 17, collisionPoint := ⟨0, 0, 0⟩ }

def comboState4 : CMState := { CMState.init with consecutiveHumanHits := 4 }

theorem animal_penalty_resets_combo_witness :
    evAnimal.bodyBId ∉ comboState4.hitObjects
    ∧ (evHuman 22 10).bodyBId ∉ (processAnimalCollision comboState4 evAnimal).hitObjects
    ∧ ((processAnimalCollision comboState4 evAnimal).score = comboState4.score - 200
       ∧ (processAnimalCollision comboState4 evAnimal).consecutiveHumanHits = 0
       ∧ (processHumanCollision (processAnimalCollision comboState4 evAnimal) 0
            (evHuman 22 10)).consecutiveHumanHits = 1
       ∧ (processHumanCollision (processAnimalCollision comboState4 evAnimal) 0
            (evHuman 22 10)).score
          = (processAnimalCollision comboState4 evAnimal).score
            + jsRound (100 * min 3 ((evHuman 22 10).impactVelocity / 5))) :=
  ⟨by decide, by decide,
    animal_penalty_resets_combo comboState4 0 evAnimal (evHuman 22 10)
      (by decide) (by decide)⟩

/-! ### C5: callback dispatch and throwing consumers -/

def cbThrow : CollisionEvent → Bool := fun _ => true

def cbOk : CollisionEvent → Bool := fun _ => false

/-- C5 counterexample: with two registered callbacks, the first of
which throws, only one callback runs and the exception escapes — the
remaining registered callback is NOT invoked in the same dispatch,
refuting the claim that a throwing consumer does not prevent the rest
from running (the source loop at `CollisionManager.ts:236` has no
try/catch). -/
theorem callback_throw_skips_rest :
    (runCallbacks [cbThrow, cbOk] (evHuman 11 10)).1 = 1
    ∧ (runCallbacks [cbThrow, cbOk] (evHuman 11 10)).1 ≠ 2
    ∧ (runCallbacks [cbThrow, cbOk] (evHuman 11 10)).2 = true := by
  refine ⟨rfl, ?_, rfl⟩
  decide

/-- C5 amended: during dispatch, callbacks run in registration order up
to and including the first one that throws; the exception then
propagates out of the loop, so the callbacks registered after it are
skipped in that dispatch. -/
theorem callback_throw_aborts_dispatch (pre post : List (CollisionEvent → Bool))
    (c : CollisionEvent → Bool) (e : CollisionEvent)
    (hpre : ∀ cb ∈ pre, cb e = false) (hc : c e = true) :
    runCallbacks (pre ++ c :: post) e = (pre.length + 1, true) := by
  induction pre with
  | nil => simp [runCallbacks, hc]
  | cons hd tl ih =>
    have h1 : hd e = false := hpre hd (List.mem_cons_self hd tl)
    have h2 := ih (fun cb hcb => hpre cb (List.mem_cons_of_mem hd hcb))
    simp [runCallbacks, h1, h2]

theorem callback_throw_aborts_dispatch_witness :
    (∀ cb ∈ [cbOk], cb (evHuman 11 10) = false)
    ∧ cbThrow (evHuman 11 10) = true
    ∧ runCallbacks ([cbOk] ++ cbThrow :: [cbOk]) (evHuman 11 10)
        = ([cbOk].length + 1, true) :=
  ⟨by decide, rfl,
    callback_throw_aborts_dispatch [cbOk] [cbOk] cbThrow (evHuman 11 10)
      (by decide) rfl⟩

/-! ### C8: stepping the physics world with a bad delta -/

/-- C8: `PhysicsWorld.update` with a non-positive or NaN delta is a
no-op for every possible step/sync behavior: the guard `deltaTime > 0`
is false (in JS, NaN compares false), so the world is returned
untouched — no body position or orientation changes and no state is
corrupted. -/
theorem update_bad_delta_noop (stepSync : ℚ → PWState → PWState) (w : PWState)
    (dt : JSNum) (h : dt = JSNum.nan ∨ ∃ q, dt = JSNum.num q ∧ q ≤ 0) :
    pwUpdate stepSync w dt = w := by
  rcases h with h | ⟨q, rfl, hq⟩
  · subst h; rfl
  · simp [pwUpdate, jsGtZero, not_lt.mpr hq]

def corruptStep : ℚ → PWState → PWState := fun _ _ =>
  { worldBodies := [999], physicsBodies := [999], meshLinks := [] }

def sampleWorld : PWState :=
  { worldBodies := [1, 7], physicsBodies := [1, 7], meshLinks := [(7, 70)] }

theorem update_bad_delta_noop_witness :
    ((JSNum.num (-1) = JSNum.nan ∨ ∃ q, JSNum.num (-1) = JSNum.num q ∧ q ≤ 0)
      ∧ pwUpdate corruptStep sampleWorld (JSNum.num (-1)) = sampleWorld)
    ∧ ((JSNum.nan = JSNum.nan ∨ ∃ q, JSNum.nan = JSNum.num q ∧ q ≤ 0)
      ∧ pwUpdate corruptStep sampleWorld JSNum.nan = sampleWorld) :=
  ⟨⟨Or.inr ⟨-1, rfl, by norm_num⟩,
      update_bad_delta_noop corruptStep sampleWorld (JSNum.num (-1))
        (Or.inr ⟨-1, rfl, by norm_num⟩)⟩,
   ⟨Or.inl rfl,
      update_bad_delta_noop corruptStep sampleWorld JSNum.nan (Or.inl rfl)⟩⟩

/-! ### C9: the vehicle controller's velocity discipline -/

theorem clampStep_bounds (x : ℚ) :
    -vehMaxSpeed / 2 ≤ clampStep x ∧ clampStep x ≤ vehMaxSpeed := by
  constructor
  · exact le_max_right _ _
  · exact max_le (min_le_right _ _) (by norm_num [vehMaxSpeed])

/-- C9: after `applyControls`, the scalar velocity always lies in
`[-maxSpeed/2, maxSpeed]`; with no throttle/reverse (and no brake or
handbrake) a velocity already in range decays by ×0.98, snapping to
exactly 0 below magnitude 0.1; and holding forward plus handbrake
multiplies the post-throttle velocity by exactly 0.9 (no decay applies
while throttle is held). -/
theorem applyControls_velocity_spec :
    (∀ (cs : ControlState) (v d : ℚ),
        -vehMaxSpeed / 2 ≤ (applyControls cs v d).1
        ∧ (applyControls cs v d).1 ≤ vehMaxSpeed)
    ∧ (∀ v d : ℚ, -vehMaxSpeed / 2 ≤ v → v ≤ vehMaxSpeed →
        (applyControls ⟨false, false, false, false, false, false⟩ v d).1
          = if |v| < 1/10 then 0 else v * (98/100))
    ∧ (∀ v d : ℚ,
        -vehMaxSpeed / 2 ≤ v + vehAcceleration * (16/1000) →
        v + vehAcceleration * (16/1000) ≤ vehMaxSpeed →
        (applyControls ⟨true, false, false, false, false, true⟩ v d).1
          = (v + vehAcceleration * (16/1000)) * (9/10)) := by
  refine ⟨fun cs v d => ?_, fun v d hlo hhi => ?_, fun v d hlo hhi => ?_⟩
  · unfold applyControls idleDecayStep
    obtain ⟨hl, hr⟩ := clampStep_bounds
      (brakeStep cs (handbrakeStep cs (reverseStep cs (accelStep cs v))))
    split_ifs with h habs
    · norm_num [vehMaxSpeed]
    · constructor <;> nlinarith
    · exact ⟨hl, hr⟩
  · unfold applyControls idleDecayStep brakeStep handbrakeStep reverseStep accelStep
    simp only [if_neg, if_pos]
    norm_num
    have hc : clampStep v = v := by
      unfold clampStep
      rw [min_eq_left hhi, max_eq_left]
      linarith
    rw [hc]
  · have h1 : (v + vehAcceleration * (16/1000)) * (9/10) ≤ vehMaxSpeed := by
      norm_num [vehMaxSpeed, vehAcceleration] at hlo hhi ⊢
      nlinarith
    have h2 : -vehMaxSpeed / 2 ≤ (v + vehAcceleration * (16/1000)) * (9/10) := by
      norm_num [vehMaxSpeed, vehAcceleration] at hlo hhi ⊢
      nlinarith
    have hclamp : clampStep ((v + vehAcceleration * (16/1000)) * (9/10))
        = (v + vehAcceleration * (16/1000)) * (9/10) := by
      unfold clampStep
      rw [min_eq_left h1, max_eq_left h2]
    unfold applyControls idleDecayStep brakeStep handbrakeStep reverseStep accelStep
    simpa using hclamp

theorem applyControls_velocity_spec_witness :
    (-vehMaxSpeed / 2 ≤ (applyControls ⟨true, true, true, true, true, true⟩ 100 0).1
      ∧ (applyControls ⟨true, true, true, true, true, true⟩ 100 0).1 ≤ vehMaxSpeed)
    ∧ (-vehMaxSpeed / 2 ≤ (20 : ℚ) ∧ (20 : ℚ) ≤ vehMaxSpeed
      ∧ (applyControls ⟨false, false, false, false, false, false⟩ 20 0).1
          = if |(20 : ℚ)| < 1/10 then 0 else 20 * (98/100))
    ∧ (-vehMaxSpeed / 2 ≤ (20 : ℚ) + vehAcceleration * (16/1000)
      ∧ (20 : ℚ) + vehAcceleration * (16/1000) ≤ vehMaxSpeed
      ∧ (applyControls ⟨true, false, false, false, false, true⟩ 20 0).1
          = (20 + vehAcceleration * (16/1000)) * (9/10)) :=
  ⟨applyControls_velocity_spec.1 ⟨true, true, true, true, true, true⟩ 100 0,
   ⟨by norm_num [vehMaxSpeed], by norm_num [vehMaxSpeed],
     applyControls_velocity_spec.2.1 20 0 (by norm_num [vehMaxSpeed])
       (by norm_num [vehMaxSpeed])⟩,
   ⟨by norm_num [vehMaxSpeed, vehAcceleration],
     by norm_num [vehMaxSpeed, vehAcceleration],
     applyControls_velocity_spec.2.2 20 0
       (by norm_num [vehMaxSpeed, vehAcceleration])
       (by norm_num [vehMaxSpeed, vehAcceleration])⟩⟩

/-! ### C10: panic permanence -/

theorem chooseNewDirection_speed_mode (o : MathOracle) (r1 r2 : ℚ) (now : ℕ)
    (h : HumanState) :
    (chooseNewDirection o r1 r2 now h).walkSpeed = h.walkSpeed
    ∧ (chooseNewDirection o r1 r2 now h).panicMode = h.panicMode :=
  ⟨rfl, rfl⟩

theorem humanUpdate_speed_mode (o : MathOracle) (now : ℕ) (dt r1 r2 r3 r4 : ℚ)
    (h : HumanState) :
    (humanUpdate o now dt r1 r2 r3 r4 h).walkSpeed = h.walkSpeed
    ∧ (humanUpdate o now dt r1 r2 r3 r4 h).panicMode = h.panicMode := by
  unfold humanUpdate
  split_ifs <;>
    first
      | exact ⟨rfl, rfl⟩
      | (dsimp only
         split <;>
           first
             | exact ⟨rfl, rfl⟩
             | (split_ifs <;> exact ⟨rfl, rfl⟩))

theorem humanPanic_already (o : MathOracle) (now : ℕ) (threat : Vec3)
    (h : HumanState) (hp : h.panicMode = true) :
    humanPanic o now threat h = h := by
  unfold humanPanic
  simp [hp]

theorem runHuman_panic_invariant (o : MathOracle) (ops : List HumanOp)
    (h : HumanState) (hp : h.panicMode = true) (hs : h.walkSpeed = 5) :
    (runHuman o h ops).panicMode = true ∧ (runHuman o h ops).walkSpeed = 5 := by
  induction ops generalizing h with
  | nil => exact ⟨hp, hs⟩
  | cons op rest ih =>
    cases op with
    | upd now dt r1 r2 r3 r4 =>
      obtain ⟨hw, hm⟩ := humanUpdate_speed_mode o now dt r1 r2 r3 r4 h
      exact ih _ (hm.trans hp) (hw.trans hs)
    | pan now threat =>
      rw [runHuman, humanPanic_already o now threat h hp]
      exact ih _ hp hs

/-- C10: a human's panic transition is permanent and idempotent.  From
a non-panicking state, `panic` sets `panicMode` and fixes the walk
speed at 5; under every later sequence of `update`/`panic` calls (any
times, deltas and random draws, any math oracle) both stay that way —
the agent never returns to its 1.5 wander speed — and any `panic` call
on an already-panicking state returns the state entirely unchanged. -/
theorem panic_permanent (o : MathOracle) (h : HumanState) (now : ℕ)
    (threat : Vec3) (ops : List HumanOp) (hnp : h.panicMode = false) :
    (humanPanic o now threat h).panicMode = true
    ∧ (humanPanic o now threat h).walkSpeed = 5
    ∧ (runHuman o (humanPanic o now threat h) ops).panicMode = true
    ∧ (runHuman o (humanPanic o now threat h) ops).walkSpeed = 5
    ∧ (∀ (h2 : HumanState) (n2 : ℕ) (t2 : Vec3), h2.panicMode = true →
        humanPanic o n2 t2 h2 = h2) := by
  have hset : (humanPanic o now threat h).panicMode = true
      ∧ (humanPanic o now threat h).walkSpeed = 5 := by
    unfold humanPanic
    simp [hnp]
  obtain ⟨hrun1, hrun2⟩ :=
    runHuman_panic_invariant o ops (humanPanic o now threat h) hset.1 hset.2
  exact ⟨hset.1, hset.2, hrun1, hrun2, fun h2 n2 t2 hp => humanPanic_already o n2 t2 h2 hp⟩

/-- A trivial oracle for witnesses: all float-library routines return 0
(or the zero vector); the theorems hold for every oracle. -/
def zeroOracle : MathOracle :=
  { sinQ := fun _ => 0, cosQ := fun _ => 0, atan2Q := fun _ _ => 0
    piQ := 0, normalizeQ := fun _ => ⟨0, 0, 0⟩ }

theorem panic_permanent_witness :
    (HumanState.initial ⟨0, 0, 0⟩).panicMode = false
    ∧ ((humanPanic zeroOracle 0 ⟨1, 0, 0⟩ (HumanState.initial ⟨0, 0, 0⟩)).panicMode = true
      ∧ (humanPanic zeroOracle 0 ⟨1, 0, 0⟩ (HumanState.initial ⟨0, 0, 0⟩)).walkSpeed = 5
      ∧ (runHuman zeroOracle
            (humanPanic zeroOracle 0 ⟨1, 0, 0⟩ (HumanState.initial ⟨0, 0, 0⟩))
            [HumanOp.upd 16 (16/1000) 0 0 0 0, HumanOp.pan 32 ⟨2, 0, 0⟩,
             HumanOp.upd 48 (16/1000) 0 0 0 0]).panicMode = true
      ∧ (runHuman zeroOracle
            (humanPanic zeroOracle 0 ⟨1, 0, 0⟩ (HumanState.initial ⟨0, 0, 0⟩))
            [HumanOp.upd 16 (16/1000) 0 0 0 0, HumanOp.pan 32 ⟨2, 0, 0⟩,
             HumanOp.upd 48 (16/1000) 0 0 0 0]).walkSpeed = 5
      ∧ (∀ (h2 : HumanState) (n2 : ℕ) (t2 : Vec3), h2.panicMode = true →
          humanPanic zeroOracle n2 t2 h2 = h2)) :=
  ⟨rfl,
    panic_permanent zeroOracle (HumanState.initial ⟨0, 0, 0⟩) 0 ⟨1, 0, 0⟩
      [HumanOp.upd 16 (16/1000) 0 0 0 0, HumanOp.pan 32 ⟨2, 0, 0⟩,
       HumanOp.upd 48 (16/1000) 0 0 0 0] rfl⟩

/-! ### C6: body removal does not purge collision-manager state -/

def sq0 : ℚ → ℚ := fun _ => 0

/-- A vehicle body (id 1) and a human body (id 7). -/
def vehBody : Body := { id := 1, position := ⟨0, 0, 0⟩, velocity := ⟨0, 0, 0⟩ }

def humBody7 : Body := { id := 7, position := ⟨2, 0, 0⟩, velocity := ⟨0, 0, 0⟩ }

/-- A contact between the vehicle and human 7 with impact speed 10. -/
def evRaw7 : RawEvent :=
  { bodyA := humBody7, bodyB := vehBody
    contact := some { impactVelocityAlongNormal := 10, biPosition := ⟨0, 0, 0⟩, ri := ⟨1, 0, 0⟩ } }

/-- The collision-manager state after registering the vehicle and human
7 and handling one vehicle–human contact (so 7 sits in the hit set). -/
def cmAfterHit : CMState :=
  (handleCollision sq0 500 (registerObject (setVehicle CMState.init 1) 7 ObjType.humanNpc)
    evRaw7).1

/-- C6 counterexample: `PhysicsWorld.removeBody` deletes body 7 from
the physics world's own registries, but body 7's entries survive in
both the hit-deduplication set and the classification map — the claim
that removal purges those two structures is false (`removeBody` in
`PhysicsWorld.ts:253` has no reference to the `CollisionManager`). -/
theorem removeBody_leaves_cm_entries :
    7 ∈ (gameRemoveBody sampleWorld cmAfterHit 7).2.hitObjects
    ∧ (gameRemoveBody sampleWorld cmAfterHit 7).2.objectTypes 7 = some ObjType.humanNpc
    ∧ 7 ∉ (gameRemoveBody sampleWorld cmAfterHit 7).1.physicsBodies
    ∧ 7 ∉ (gameRemoveBody sampleWorld cmAfterHit 7).1.worldBodies := by
  refine ⟨?_, rfl, by decide, by decide⟩
  decide

/-- C6 amended: removing a body purges it from the physics world's own
registries (world body list, id map, mesh maps), but leaves the
collision manager — hit-deduplication set and classification map —
entirely untouched; a dedup entry only disappears via its 1-second
timer or the periodic clear, and a classification entry never does. -/
theorem removeBody_scope (w : PWState) (cm : CMState) (b : ℕ) :
    (gameRemoveBody w cm b).2 = cm
    ∧ b ∉ (gameRemoveBody w cm b).1.worldBodies
    ∧ b ∉ (gameRemoveBody w cm b).1.physicsBodies
    ∧ ∀ m, (b, m) ∉ (gameRemoveBody w cm b).1.meshLinks := by
  refine ⟨rfl, ?_, ?_, fun m hm => ?_⟩
  · intro hmem
    rcases List.mem_filter.mp hmem with ⟨_, hb⟩
    simp at hb
  · intro hmem
    rcases List.mem_filter.mp hmem with ⟨_, hb⟩
    simp at hb
  · rcases List.mem_filter.mp hm with ⟨_, hb⟩
    simp at hb

/-! ### C7: population culling -/

/-- C7 counterexample: the cull in `NPCManager.update` tests
`position.length() > 150` — distance from the WORLD ORIGIN, not from
the player.  An agent at `(100,0,0)` whose distance to the player at
`(300,0,0)` is 200 (> 150) is kept, and an agent at `(160,0,0)` sitting
exactly on the player (distance 0) is destroyed — both directions of
the claim fail.  (`upd`/`pan` instantiated with the identity for
concreteness; the amended theorem quantifies over them.) -/
theorem cull_ignores_player_counterexample :
    updatePool (A := Vec3) id id (fun _ a => a) (some ⟨300, 0, 0⟩) [⟨100, 0, 0⟩]
        = [⟨100, 0, 0⟩]
    ∧ Vec3.distSq ⟨100, 0, 0⟩ ⟨300, 0, 0⟩ = 200 * 200
    ∧ updatePool (A := Vec3) id id (fun _ a => a) (some ⟨160, 0, 0⟩) [⟨160, 0, 0⟩] = []
    ∧ Vec3.distSq ⟨160, 0, 0⟩ ⟨160, 0, 0⟩ = 0 := by
  refine ⟨?_, ?_, ?_, ?_⟩ <;>
    norm_num [updatePool, panicCheck, Vec3.normSq, Vec3.distSq, Vec3.sub]

/-- C7 amended: on every population tick, each agent is updated and
then destroyed exactly when its post-update squared distance from the
world origin exceeds `150²`; the survivors — those within 150 units of
the ORIGIN — are kept in order, with the panic/flee call applied to any
survivor strictly within the 15-unit panic radius of the player. -/
theorem cull_by_origin_distance {A : Type} (upd : A → A) (pos : A → Vec3)
    (pan : Vec3 → A → A) (veh : Option Vec3) (l : List A) :
    updatePool upd pos pan veh l
      = ((l.map upd).filter (fun a => decide (Vec3.normSq (pos a) ≤ 22500))).map
          (panicCheck pos pan veh) := by
  induction l with
  | nil => rfl
  | cons a rest ih =>
    by_cases hfar : 22500 < Vec3.normSq (pos (upd a))
    · rw [updatePool, if_pos hfar]
      simp [List.filter, not_le.mpr hfar, ih]
    · rw [updatePool, if_neg hfar]
      simp [List.filter, not_lt.mp hfar, ih]

/-! ### C1: hit deduplication across the event loop -/

theorem mem_setAdd_of_mem {l : List ℕ} {b i : ℕ} (h : b ∈ l) : b ∈ setAdd l i := by
  unfold setAdd
  split_ifs with hm
  · exact h
  · exact List.mem_append_left _ h

theorem processCollision_pres (s : CMState) (now : ℕ) (e : CollisionEvent) :
    (processCollision s now e).objectTypes = s.objectTypes
    ∧ (processCollision s now e).vehicleSet = s.vehicleSet
    ∧ (processCollision s now e).timers = s.timers
    ∧ ∀ b ∈ s.hitObjects, b ∈ (processCollision s now e).hitObjects := by
  unfold processCollision processHumanCollision processAnimalCollision
  split
  all_goals first
    | exact ⟨rfl, rfl, rfl, fun b hb => hb⟩
    | (split_ifs with hmem
       · exact ⟨rfl, rfl, rfl, fun b hb => hb⟩
       · exact ⟨rfl, rfl, rfl, fun b hb => mem_setAdd_of_mem hb⟩)

theorem handleCollision_types (sq : ℚ → ℚ) (now : ℕ) (s : CMState) (e : RawEvent) :
    (handleCollision sq now s e).1.objectTypes = s.objectTypes
    ∧ (handleCollision sq now s e).1.vehicleSet = s.vehicleSet := by
  rcases hres : resolveTarget s.objectTypes e with _ | ⟨v, tid⟩ <;>
    simp only [handleCollision, hres] <;>
    split_ifs <;>
    first
      | exact ⟨rfl, rfl⟩
      | exact ⟨(processCollision_pres _ now _).1, (processCollision_pres _ now _).2.1⟩

theorem handleCollision_keeps (sq : ℚ → ℚ) (now t2 b : ℕ) (s : CMState) (e : RawEvent)
    (hb : b ∈ s.hitObjects)
    (hl : ∀ p ∈ s.timers, p.2 = b → t2 < p.1) :
    b ∈ (handleCollision sq now s e).1.hitObjects
    ∧ ∀ p ∈ (handleCollision sq now s e).1.timers, p.2 = b → t2 < p.1 := by
  rcases hres : resolveTarget s.objectTypes e with _ | ⟨v, tid⟩
  · simp only [handleCollision, hres]
    split_ifs <;> exact ⟨hb, hl⟩
  · simp only [handleCollision, hres]
    split_ifs with h1 h2 h3
    · exact ⟨hb, hl⟩
    · exact ⟨hb, hl⟩
    · refine ⟨(processCollision_pres _ now _).2.2.2 b (mem_setAdd_of_mem hb),
        fun p hp hpb => ?_⟩
      rw [(processCollision_pres _ now _).2.2.1] at hp
      rcases List.mem_append.mp hp with hp' | hp'
      · exact hl p hp' hpb
      · exfalso
        have hpt : p = (now + 1000, tid) := by simpa using hp'
        rw [hpt] at hpb
        have htb : tid = b := by simpa using hpb
        apply h3
        rw [htb]
        exact hb
    · exact ⟨hb, hl⟩

theorem handleCollision_dedup_none (sq : ℚ → ℚ) (now : ℕ) (s : CMState)
    (e : RawEvent) (v b : ℕ)
    (hres : resolveTarget s.objectTypes e = some (v, b)) (hb : b ∈ s.hitObjects) :
    (handleCollision sq now s e).2 = none := by
  simp only [handleCollision, hres]
  split_ifs with h1 h2 <;> rfl

theorem handleCollision_dispatches (sq : ℚ → ℚ) (now : ℕ) (s : CMState)
    (e : RawEvent) (v b : ℕ) (c : ContactData)
    (hveh : s.vehicleSet = true)
    (hres : resolveTarget s.objectTypes e = some (v, b))
    (hb : b ∉ s.hitObjects)
    (hc : e.contact = some c) (himp : 1 ≤ |c.impactVelocityAlongNormal|) :
    ∃ ev, (handleCollision sq now s e).2 = some ev ∧ ev.targetId = b := by
  simp only [handleCollision, hres, hc]
  rw [if_neg (by simp [hveh]), if_neg (not_lt.mpr himp), if_neg hb]
  exact ⟨_, rfl, rfl⟩

theorem fireTimers_keeps (now t2 b : ℕ) (s : CMState)
    (hb : b ∈ s.hitObjects)
    (hl : ∀ p ∈ s.timers, p.2 = b → t2 < p.1) (hn : now ≤ t2) :
    b ∈ (fireTimers now s).hitObjects
    ∧ ∀ p ∈ (fireTimers now s).timers, p.2 = b → t2 < p.1 := by
  constructor
  · refine List.mem_filter.mpr ⟨hb, ?_⟩
    simp only [List.any_eq_true, decide_eq_true_eq, not_exists, not_and]
    rintro ⟨f, i⟩ hp rfl
    obtain ⟨hmem, hfle⟩ := List.mem_filter.mp hp
    have := hl (f, i) hmem rfl
    simp only [decide_eq_true_eq] at hfle
    omega
  · intro p hp hpb
    exact hl p (List.mem_filter.mp hp).1 hpb

theorem fireTimers_removes (now f b : ℕ) (s : CMState)
    (hf : (f, b) ∈ s.timers) (hdue : f ≤ now) :
    b ∉ (fireTimers now s).hitObjects := by
  intro hmem
  have h2 := (List.mem_filter.mp hmem).2
  simp only [List.any_eq_true, decide_eq_true_eq, not_exists, not_and] at h2
  exact h2 (f, b) (List.mem_filter.mpr ⟨hf, by simpa using hdue⟩) rfl

theorem cmUpdate_types (s : CMState) (now : ℕ) :
    (cmUpdate s now).objectTypes = s.objectTypes
    ∧ (cmUpdate s now).vehicleSet = s.vehicleSet := by
  unfold cmUpdate
  split_ifs <;> exact ⟨rfl, rfl⟩

theorem cmUpdate_quiet (s : CMState) (now : ℕ) (hq : 20 ≤ now % 1000) :
    (cmUpdate s now).hitObjects = s.hitObjects
    ∧ (cmUpdate s now).timers = s.timers := by
  simp only [cmUpdate]
  rw [if_neg (by omega)]
  split_ifs <;> exact ⟨rfl, rfl⟩

/-- Conditions under which an event-loop task cannot evict the dedup
entry of a body whose pending timers all fire after `t2`: the task runs
no later than `t2`, and a `CollisionManager.update` tick does not hit
the periodic-clear window (`now % 1000 < 20`). -/
def Quiet (t2 : ℕ) : GameOp → Prop
  | GameOp.contact now _ => now ≤ t2
  | GameOp.tick now => now ≤ t2 ∧ 20 ≤ now % 1000

theorem applyOp_types (sq : ℚ → ℚ) (s : CMState) (op : GameOp) :
    (applyOp sq s op).1.objectTypes = s.objectTypes
    ∧ (applyOp sq s op).1.vehicleSet = s.vehicleSet := by
  cases op with
  | contact now e => exact handleCollision_types sq now (fireTimers now s) e
  | tick now => exact cmUpdate_types (fireTimers now s) now

theorem applyOp_keeps (sq : ℚ → ℚ) (t2 b : ℕ) (s : CMState) (op : GameOp)
    (hb : b ∈ s.hitObjects)
    (hl : ∀ p ∈ s.timers, p.2 = b → t2 < p.1)
    (hq : Quiet t2 op) :
    b ∈ (applyOp sq s op).1.hitObjects
    ∧ ∀ p ∈ (applyOp sq s op).1.timers, p.2 = b → t2 < p.1 := by
  cases op with
  | contact now e =>
    obtain ⟨hb', hl'⟩ := fireTimers_keeps now t2 b s hb hl hq
    exact handleCollision_keeps sq now t2 b (fireTimers now s) e hb' hl'
  | tick now =>
    obtain ⟨hn, hmod⟩ := hq
    obtain ⟨hb', hl'⟩ := fireTimers_keeps now t2 b s hb hl hn
    obtain ⟨hho, hti⟩ := cmUpdate_quiet (fireTimers now s) now hmod
    constructor
    · show b ∈ (cmUpdate (fireTimers now s) now).hitObjects
      rw [hho]; exact hb'
    · show ∀ p ∈ (cmUpdate (fireTimers now s) now).timers, p.2 = b → t2 < p.1
      rw [hti]; exact hl'

theorem runOps_types (sq : ℚ → ℚ) (ops : List GameOp) (s : CMState) :
    (runOps sq s ops).1.objectTypes = s.objectTypes
    ∧ (runOps sq s ops).1.vehicleSet = s.vehicleSet := by
  induction ops generalizing s with
  | nil => exact ⟨rfl, rfl⟩
  | cons op rest ih =>
    exact ⟨((ih (applyOp sq s op).1).1).trans (applyOp_types sq s op).1,
           ((ih (applyOp sq s op).1).2).trans (applyOp_types sq s op).2⟩

theorem runOps_keeps (sq : ℚ → ℚ) (t2 b : ℕ) (ops : List GameOp) (s : CMState)
    (hops : ∀ op ∈ ops, Quiet t2 op)
    (hb : b ∈ s.hitObjects)
    (hl : ∀ p ∈ s.timers, p.2 = b → t2 < p.1) :
    b ∈ (runOps sq s ops).1.hitObjects
    ∧ ∀ p ∈ (runOps sq s ops).1.timers, p.2 = b → t2 < p.1 := by
  induction ops generalizing s with
  | nil => exact ⟨hb, hl⟩
  | cons op rest ih =>
    obtain ⟨hb', hl'⟩ := applyOp_keeps sq t2 b s op hb hl
      (hops op (List.mem_cons_self op rest))
    exact ih (applyOp sq s op).1 (fun o ho => hops o (List.mem_cons_of_mem op ho)) hb' hl'

theorem runOps_append (sq : ℚ → ℚ) (l1 l2 : List GameOp) (s : CMState) :
    (runOps sq s (l1 ++ l2)).2
      = (runOps sq s l1).2 ++ (runOps sq (runOps sq s l1).1 l2).2 := by
  induction l1 generalizing s with
  | nil => simp [runOps]
  | cons op rest ih =>
    simp [runOps, ih ((applyOp sq s op).1)]

/-- A second human body (id 5) and its contact with the vehicle at
impact speed 10, for the deduplication run. -/
def humBody5 : Body := { id := 5, position := ⟨2, 0, 0⟩, velocity := ⟨0, 0, 0⟩ }

def evRaw5 : RawEvent :=
  { bodyA := humBody5, bodyB := vehBody
    contact := some { impactVelocityAlongNormal := 10, biPosition := ⟨0, 0, 0⟩, ri := ⟨1, 0, 0⟩ } }

/-- Vehicle (id 1) and human 5 registered, nothing hit yet. -/
def cmReg : CMState := registerObject (setVehicle CMState.init 1) 5 ObjType.humanNpc

/-- C1 counterexample: the same body pair collides at `t = 900` ms and
again at `t = 1100` ms — 200 ms apart, well inside the 1-second
cooldown — yet BOTH contacts dispatch an outcome, because the
`CollisionManager.update` tick at `t = 1010` hits the periodic clear
window (`1010 % 1000 = 10 < 20`) and empties the hit set before the
body's 1-second deletion timer (due at 1900) fires.  This refutes
"at most one CollisionOutcome within the cooldown window". -/
theorem dedup_window_counterexample :
    (runOps sq0 cmReg
        [GameOp.contact 900 evRaw5, GameOp.tick 1010, GameOp.contact 1100 evRaw5]).2
      = [(900, 5), (1100, 5)]
    ∧ 1100 - 900 < 1000 := by
  constructor
  · decide
  · norm_num

/-- C1 amended: (a) while the dedup entry survives — the target body is
in the hit set, every pending deletion timer for it fires after `t2`,
and every intervening event-loop task runs no later than `t2` with no
update tick in the periodic-clear window — a further contact with that
target at `t2` dispatches nothing; (b) once a pending 1-second deletion
timer for the body has come due (the cooldown expired), a new contact
with sufficient impact speed dispatches a new outcome. -/
theorem dedup_cooldown (sq : ℚ → ℚ) :
    (∀ (s : CMState) (b t2 v : ℕ) (ops : List GameOp) (e : RawEvent),
        b ∈ s.hitObjects →
        (∀ p ∈ s.timers, p.2 = b → t2 < p.1) →
        (∀ op ∈ ops, Quiet t2 op) →
        resolveTarget s.objectTypes e = some (v, b) →
        (runOps sq s (ops ++ [GameOp.contact t2 e])).2 = (runOps sq s ops).2)
    ∧ (∀ (s : CMState) (t f v b : ℕ) (e : RawEvent) (c : ContactData),
        s.vehicleSet = true → (f, b) ∈ s.timers → f ≤ t →
        resolveTarget s.objectTypes e = some (v, b) →
        e.contact = some c → 1 ≤ |c.impactVelocityAlongNormal| →
        (applyOp sq s (GameOp.contact t e)).2 = some (t, b)) := by
  constructor
  · intro s b t2 v ops e hb hl hops hres
    rw [runOps_append]
    obtain ⟨hb1, hl1⟩ := runOps_keeps sq t2 b ops s hops hb hl
    obtain ⟨hb2, hl2⟩ :=
      fireTimers_keeps t2 t2 b (runOps sq s ops).1 hb1 hl1 (le_refl t2)
    have hty : (fireTimers t2 (runOps sq s ops).1).objectTypes = s.objectTypes :=
      (runOps_types sq ops s).1
    have hnone : (handleCollision sq t2 (fireTimers t2 (runOps sq s ops).1) e).2 = none :=
      handleCollision_dedup_none sq t2 _ e v b (by rw [hty]; exact hres) hb2
    show (runOps sq s ops).2 ++
        ((applyOp sq (runOps sq s ops).1 (GameOp.contact t2 e)).2.toList ++ []) =
      (runOps sq s ops).2
    simp [applyOp, hnone]
  · intro s t f v b e c hveh htm hf hres hc himp
    have hb' : b ∉ (fireTimers t s).hitObjects := fireTimers_removes t f b s htm hf
    obtain ⟨ev, hev, hevt⟩ :=
      handleCollision_dispatches sq t (fireTimers t s) e v b c hveh hres hb' hc himp
    show ((handleCollision sq t (fireTimers t s) e).2.map
        (fun ev => (t, ev.targetId))) = some (t, b)
    rw [hev]
    simp [hevt]

/-- The state right after the first dispatched contact of the
counterexample run: human 5 is in the hit set with a deletion timer due
at 1900. -/
def cmAfter900 : CMState := (applyOp sq0 cmReg (GameOp.contact 900 evRaw5)).1

theorem dedup_cooldown_witness :
    (5 ∈ cmAfter900.hitObjects
      ∧ (∀ p ∈ cmAfter900.timers, p.2 = 5 → 1100 < p.1)
      ∧ (∀ op ∈ [GameOp.tick 1050], Quiet 1100 op)
      ∧ resolveTarget cmAfter900.objectTypes evRaw5 = some (1, 5)
      ∧ (runOps sq0 cmAfter900
            ([GameOp.tick 1050] ++ [GameOp.contact 1100 evRaw5])).2
          = (runOps sq0 cmAfter900 [GameOp.tick 1050]).2)
    ∧ (cmAfter900.vehicleSet = true
      ∧ (1900, 5) ∈ cmAfter900.timers
      ∧ 1900 ≤ 2000
      ∧ 1 ≤ |(10 : ℚ)|
      ∧ (applyOp sq0 cmAfter900 (GameOp.contact 2000 evRaw5)).2 = some (2000, 5)) := by
  constructor
  · refine ⟨by decide, by decide, ?_, by decide, ?_⟩
    · intro op hop
      have : op = GameOp.tick 1050 := by simpa using hop
      rw [this]
      exact ⟨by norm_num, by norm_num⟩
    · exact (dedup_cooldown sq0).1 cmAfter900 5 1100 1 [GameOp.tick 1050] evRaw5
        (by decide) (by decide)
        (by intro op hop
            have : op = GameOp.tick 1050 := by simpa using hop
            rw [this]
            exact ⟨by norm_num, by norm_num⟩)
        (by decide)
  · refine ⟨by decide, by decide, by norm_num, by norm_num, ?_⟩
    exact (dedup_cooldown sq0).2 cmAfter900 2000 1900 1 5 evRaw5
        { impactVelocityAlongNormal := 10, biPosition := ⟨0, 0, 0⟩, ri := ⟨1, 0, 0⟩ }
        (by decide) (by decide) (by norm_num) (by decide) rfl (by norm_num)

end Carma
